import Mathlib

/-!
Verification development for the Continuity Manager (BCMS) repository.

The repository ships the frontend department-management screens and the
product documents; the BIA Scoring and Workflow Engine itself is not part
of the checked-in sources, so its operations are modelled from the spec
(each such definition says so in its doc comment).  The frontend
definitions are shallow embeddings of the JSX sources under
src/frontend and the UserSelector component.
-/

/- ===================== Scoring Engine (spec-modelled) ===================== -/

/-- Modelled from the spec: a RatingDefinition of a qualitative parameter in
a framework snapshot, a label together with the score it resolves to. -/
structure RatingDef where
  label : String
  score : ℚ
  deriving DecidableEq

/-- Modelled from the spec: one selected parameter of a frozen framework
snapshot, with its weight and its ordered rating definitions. -/
structure ParamSnapshot where
  pid : Nat
  weight : ℚ
  defs : List RatingDef
  deriving DecidableEq

/-- Modelled from the spec: a ParameterRating of a work item; scoreGiven is
resolved at submission time from the snapshot rating definitions. -/
structure ParameterRating where
  pid : Nat
  scoreGiven : ℚ
  deriving DecidableEq

/-- Modelled from the spec: look up the submitted rating for a parameter id
among the ratings of a work item. -/
def lookupRating (ratings : List ParameterRating) (pid : Nat) : Option ℚ :=
  (ratings.find? fun r => r.pid == pid).map (fun r => r.scoreGiven)

/-- Modelled from the spec: the score a parameter contributes; a parameter
with no submitted rating contributes 0 (explicit policy of the spec). -/
def ratingScore (ratings : List ParameterRating) (pid : Nat) : ℚ :=
  match lookupRating ratings pid with
  | some s => s
  | none => 0

/-- Modelled from the spec: the weighted-average formula of the Scoring
Engine, score = sum of scoreGiven times weight over the snapshot, divided
by 100. -/
def computeScore (ratings : List ParameterRating) (snapshot : List ParamSnapshot) : ℚ :=
  ((snapshot.map fun p => ratingScore ratings p.pid * p.weight).sum) / 100

/-- Modelled from the spec: resolve a selected qualitative label to its
score using the rating definitions of the snapshot parameter. -/
def resolveScore (p : ParamSnapshot) (label : String) : Option ℚ :=
  (p.defs.find? fun d => d.label == label).map (fun d => d.score)

/-- Modelled from the spec: build the submitted ratings for a snapshot from
a selection of labels, resolving each score from the snapshot. -/
def submitRatings (snapshot : List ParamSnapshot) (sel : Nat → String) : List ParameterRating :=
  snapshot.filterMap fun p => (resolveScore p (sel p.pid)).map fun s => ⟨p.pid, s⟩

/- ===================== Workflow State Machine (spec-modelled) ===================== -/

/-- Modelled from the spec: the four work-item states of the workflow. -/
inductive Status where
  | Initiated
  | SubmittedForReview
  | ReviewInProgress
  | Approved
  deriving DecidableEq

/-- Modelled from the spec: the six transition actions of the workflow. -/
inductive WfAction where
  | saveDraft
  | submitForReview
  | requestClarification
  | forwardForApproval
  | approve
  | reject
  deriving DecidableEq

/-- Modelled from the spec: printable name of a transition action, used in
the InvalidTransition error message. -/
def WfAction.name : WfAction → String
  | .saveDraft => "saveDraft"
  | .submitForReview => "submitForReview"
  | .requestClarification => "requestClarification"
  | .forwardForApproval => "forwardForApproval"
  | .approve => "approve"
  | .reject => "reject"

/-- Modelled from the spec: a ProcessWorkItem, the per-process mutable
workflow state of a BIA instance. -/
structure WorkItem where
  status : Status
  ratings : List ParameterRating
  recommendedRTO : Option Nat
  rtoJustification : Option String
  reviewerComments : Option String
  departmentHeadNote : Option String
  finalApprovedRTO : Option Nat
  finalImpactScore : Option ℚ
  submittedAt : Option Nat
  deriving DecidableEq

/-- Modelled from the spec: the named workflow errors; InvalidTransition
carries both the current state and the attempted transition. -/
inductive WfError where
  | InvalidTransition (current : Status) (attempted : String)
  | IncompleteSubmission
  | ValidationError (field : String)
  deriving DecidableEq

/-- Modelled from the spec: the guard table of the state machine, listing
for each action the source states from which it is allowed. -/
def guardTable : WfAction → List Status
  | .saveDraft => [.Initiated]
  | .submitForReview => [.Initiated]
  | .requestClarification => [.SubmittedForReview]
  | .forwardForApproval => [.SubmittedForReview]
  | .approve => [.ReviewInProgress]
  | .reject => [.ReviewInProgress]

/-- Modelled from the spec: the payload a transition call carries (the
framework snapshot, the clock, draft content, comments, notes, optional
reviewer overrides). -/
structure StepInput where
  snapshot : List ParamSnapshot
  now : Nat
  draftRatings : List ParameterRating
  draftRTO : Option Nat
  draftJustification : Option String
  comments : String
  note : String
  overrideScore : Option ℚ
  overrideRTO : Option Nat
  deriving DecidableEq

/-- Modelled from the spec: whether every framework parameter of the
snapshot has a submitted rating. -/
def allRated (snapshot : List ParamSnapshot) (ratings : List ParameterRating) : Bool :=
  snapshot.all fun p => (lookupRating ratings p.pid).isSome

/-- Modelled from the spec: the per-action body of each transition, applied
after the guard-table check on the source state has passed. -/
def applyAction : WfAction → StepInput → WorkItem → Except WfError WorkItem
  | .saveDraft, inp, w =>
      .ok { w with ratings := inp.draftRatings, recommendedRTO := inp.draftRTO,
                   rtoJustification := inp.draftJustification }
  | .submitForReview, inp, w =>
      if allRated inp.snapshot w.ratings then
        .ok { w with status := .SubmittedForReview,
                     finalImpactScore := some (computeScore w.ratings inp.snapshot),
                     submittedAt := some inp.now }
      else
        .error .IncompleteSubmission
  | .requestClarification, inp, w =>
      if inp.comments == "" then .error (.ValidationError "comments")
      else
        .ok { w with status := .Initiated, reviewerComments := some inp.comments,
                     submittedAt := none }
  | .forwardForApproval, inp, w =>
      .ok { w with status := .ReviewInProgress,
                   finalImpactScore :=
                     match inp.overrideScore with
                     | some s => some s
                     | none => w.finalImpactScore,
                   recommendedRTO :=
                     match inp.overrideRTO with
                     | some r => some r
                     | none => w.recommendedRTO }
  | .approve, inp, w =>
      if inp.note == "" then .error (.ValidationError "note")
      else
        .ok { w with status := .Approved, departmentHeadNote := some inp.note,
                     finalApprovedRTO := w.recommendedRTO }
  | .reject, inp, w =>
      if inp.note == "" then .error (.ValidationError "note")
      else
        .ok { w with status := .Initiated, departmentHeadNote := some inp.note,
                     finalApprovedRTO := none }

/-- Modelled from the spec: a workflow transition call; every transition
invoked from a state not in its guard table fails with InvalidTransition
naming the current state and the attempted transition. -/
def step (a : WfAction) (inp : StepInput) (w : WorkItem) : Except WfError WorkItem :=
  if w.status ∈ guardTable a then applyAction a inp w
  else .error (.InvalidTransition w.status a.name)

/-- Modelled from the spec: the stored work item after a transition call; a
failed call stores nothing, so the work item is unchanged. -/
def runStep (a : WfAction) (inp : StepInput) (w : WorkItem) : WorkItem :=
  match step a inp w with
  | .ok w1 => w1
  | .error _ => w

/- ===================== RTO Derivation (spec-modelled) ===================== -/

/-- Modelled from the spec: the effective RTO of a process is its
finalApprovedRTO while the work item is Approved, else not set. -/
def deriveProcessRTO (w : WorkItem) : Option Nat :=
  if w.status = Status.Approved then w.finalApprovedRTO else none

/-- Modelled from the spec: the derived application RTO, a pure minimum
reduction over the effective RTOs of the currently-active supporting
processes; none stands for the explicit value unset. -/
def deriveApplicationRTO (supportingProcesses : List WorkItem) : Option Nat :=
  match supportingProcesses.filterMap deriveProcessRTO with
  | [] => none
  | r :: rs => some (rs.foldl min r)

/-- Modelled from the spec: the application-side state that holds the
derived RTO. -/
structure AppState where
  derivedRTO : Option Nat
  deriving DecidableEq

/-- Modelled from the spec: a full recomputation of the application RTO
from the current supporting-process states, writing the derived value. -/
def recomputeAppRTO (app : AppState) (supportingProcesses : List WorkItem) : AppState :=
  { app with derivedRTO := deriveApplicationRTO supportingProcesses }

/- ===================== Framework Builder (spec-modelled) ===================== -/

/-- Modelled from the spec: one selected parameter of a Framework with its
weight; active records whether the underlying parameter is active. -/
structure FrameworkParamSel where
  pid : Nat
  weight : Nat
  active : Bool
  deriving DecidableEq

/-- Modelled from the spec: the named errors of the Framework Builder save
operation. -/
inductive FwError where
  | WeightSumInvalid
  | EmptyFramework
  deriving DecidableEq

/-- Modelled from the spec: a saved Framework, an ordered selection of
parameters with weights plus a criticality threshold. -/
structure Framework where
  params : List FrameworkParamSel
  threshold : ℚ
  deriving DecidableEq

/-- Modelled from the spec: the sum of the weights of the active selected
parameters of a framework. -/
def activeWeightSum (ps : List FrameworkParamSel) : Nat :=
  ((ps.filter fun p => p.active).map fun p => p.weight).sum

/-- Modelled from the spec: the Framework Builder save operation; fails with
EmptyFramework when zero parameters are selected and with WeightSumInvalid
unless the active-parameter weights sum to exactly 100. -/
def save (ps : List FrameworkParamSel) (threshold : ℚ) : Except FwError Framework :=
  if ps.isEmpty then .error .EmptyFramework
  else if activeWeightSum ps = 100 then .ok ⟨ps, threshold⟩
  else .error .WeightSumInvalid

/- ===================== Frontend: department creation (from src) ===================== -/

/-- The hard-coded placeholder organization id used by the features
department-management onSubmit handler
(src/frontend/src/features/departments/DepartmentManagement.jsx). -/
def DEFAULT_PLACEHOLDER_ORG_ID : String := "00000000-0000-0000-0000-000000000001"

/-- The hard-coded default organization id of the department-management page
(src/frontend/src/pages/DepartmentManagement/DepartmentManagement.jsx). -/
def DEFAULT_ORG_ID : String := "00000000-0000-0000-0000-000000000001"

/-- The departmentData object built by CreateDepartmentModal handleSubmit
from the form fields. -/
structure DepartmentFormData where
  name : String
  description : String
  department_head_id : Option String
  parent_department_name : String
  deriving DecidableEq

/-- CreateDepartmentModal handleSubmit: packs the form fields into the
departmentData object passed to the onSubmit prop. -/
def createDepartmentModalSubmit (departmentName description : String)
    (departmentHeadId : Option String) (parentDepartment : String) : DepartmentFormData :=
  { name := departmentName, description := description,
    department_head_id := departmentHeadId,
    parent_department_name := parentDepartment }

/-- The payload posted to /api/v1/departments/, shaped after the
DepartmentCreate model the frontend targets. -/
structure DepartmentApiPayload where
  name : String
  description : String
  organizationId : String
  department_head_id : Option String
  deriving DecidableEq

/-- The onSubmit handler of the features DepartmentManagement component:
builds the api payload from departmentData, hard-coding organizationId to
the placeholder id and department_head_id to null. -/
def featuresOnSubmitPayload (departmentData : DepartmentFormData) : DepartmentApiPayload :=
  { name := departmentData.name,
    description := departmentData.description,
    organizationId := DEFAULT_PLACEHOLDER_ORG_ID,
    department_head_id := none }

/-- A department row as listed by the page. -/
structure Department where
  id : String
  name : String
  description : Option String
  deriving DecidableEq

/-- The React state of DepartmentManagementPage. -/
structure PageState where
  departments : List Department
  isLoading : Bool
  error : Option String
  showCreateModal : Bool
  deriving DecidableEq

/-- fetchDepartments of DepartmentManagementPage: on a successful GET it
stores the fetched rows and clears the error; on failure it stores the
error message; either way loading ends false. -/
def fetchDepartments (st : PageState) (result : Except String (List Department)) : PageState :=
  match result with
  | .ok items => { st with isLoading := false, error := none, departments := items }
  | .error msg => { st with isLoading := false, error := some msg }

/-- handleCreateDepartment of DepartmentManagementPage: on a successful
POST it closes the create modal and refetches the list; on failure it only
raises a toast, leaving the page state untouched. -/
def handleCreateDepartment (st : PageState) (postResult : Except String Unit)
    (fetchResult : Except String (List Department)) : PageState :=
  match postResult with
  | .ok _ => fetchDepartments { st with showCreateModal := false } fetchResult
  | .error _ => st

/- ===================== Frontend: UserSelector (from src) ===================== -/

/-- A user row returned by the users endpoint. -/
structure User where
  id : String
  firstName : String
  lastName : String
  email : String
  deriving DecidableEq

/-- The React state of the UserSelector component. -/
structure USState where
  users : List User
  loading : Bool
  error : Option String
  deriving DecidableEq

/-- The initial UserSelector state: useState([]), useState(false),
useState(null). -/
def initialUSState : USState := { users := [], loading := false, error := none }

/-- JavaScript falsiness of the organizationId prop: missing or the empty
string. -/
def isFalsyOrgId : Option String → Bool
  | none => true
  | some s => s == ""

/-- The URL requested by the fetchUsers effect for a present
organizationId. -/
def usersUrl (organizationId : Option String) : String :=
  "/api/v1/users?organization_id=" ++ organizationId.getD ""

/-- The fetchUsers effect of UserSelector: with a falsy organizationId it
returns early, issuing no request and leaving the state unchanged;
otherwise it issues the GET and stores its outcome. The second component
is the request issued, if any. -/
def runFetchUsersEffect (organizationId : Option String)
    (fetchResult : Except String (List User)) (st : USState) : USState × Option String :=
  if isFalsyOrgId organizationId then (st, none)
  else
    match fetchResult with
    | .ok items => ({ users := items, loading := false, error := none },
                    some (usersUrl organizationId))
    | .error msg => ({ users := [], loading := false, error := some msg },
                     some (usersUrl organizationId))

/-- The select element rendered by UserSelector: its controlled value, its
disabled flag, and its option list as value-label pairs. -/
structure SelectView where
  value : String
  disabled : Bool
  options : List (String × String)
  deriving DecidableEq

/-- What UserSelector renders: the loading paragraph, the error paragraph,
or the select element. -/
inductive USRender where
  | loadingText
  | errorText (msg : String)
  | select (view : SelectView)
  deriving DecidableEq

/-- The default placeholder option of the UserSelector select element. -/
def placeholderOption : String × String := ("", "-- Select Department Head --")

/-- The option rendered for one fetched user. -/
def userOption (u : User) : String × String :=
  (u.id, u.firstName ++ " " ++ u.lastName ++ " (" ++ u.email ++ ")")

/-- The UserSelector render function over its props and state: loading and
error short-circuit; otherwise the select is rendered with the placeholder
option first and is disabled when organizationId is falsy or no users are
loaded. -/
def renderUserSelector (organizationId : Option String) (value : Option String)
    (st : USState) : USRender :=
  if st.loading then .loadingText
  else
    match st.error with
    | some msg => .errorText msg
    | none =>
        .select { value := value.getD "",
                  disabled := isFalsyOrgId organizationId || st.users.isEmpty,
                  options := placeholderOption :: st.users.map userOption }

/-- The onChange handler of the UserSelector select element: passes null
when the empty placeholder value is selected, else the selected value. -/
def userSelectorOnChange (targetValue : String) : Option String :=
  if targetValue == "" then none else some targetValue

/- ===================== Concrete scenarios from the spec ===================== -/

/-- Scenario A parameter P1: qualitative Low=1, High=5, weight 60. -/
def scenarioA_P1 : ParamSnapshot := ⟨1, 60, [⟨"Low", 1⟩, ⟨"High", 5⟩]⟩

/-- Scenario A parameter P2: qualitative Low=1, High=3, weight 40. -/
def scenarioA_P2 : ParamSnapshot := ⟨2, 40, [⟨"Low", 1⟩, ⟨"High", 3⟩]⟩

/-- Scenario A framework snapshot: P1 at weight 60, P2 at weight 40. -/
def scenarioA_snapshot : List ParamSnapshot := [scenarioA_P1, scenarioA_P2]

/-- Scenario A selection: P1 rated High, P2 rated Low. -/
def scenarioA_sel : Nat → String := fun pid => if pid == 1 then "High" else "Low"

/-- Scenario A submitted ratings, with scoreGiven resolved from the
snapshot rating definitions. -/
def scenarioA_ratings : List ParameterRating := submitRatings scenarioA_snapshot scenarioA_sel

/-- The scoreGiven values of scenario A as a total assignment: P1 resolves
High to 5, P2 resolves Low to 1. -/
def scenarioA_f : Nat → ℚ := fun pid => if pid == 1 then 5 else 1

/-- Scenario C process P: approved with final approved RTO of 8 hours
(480 minutes). -/
def scenarioC_P : WorkItem :=
  { status := .Approved, ratings := [], recommendedRTO := some 480,
    rtoJustification := none, reviewerComments := none,
    departmentHeadNote := some "ok", finalApprovedRTO := some 480,
    finalImpactScore := none, submittedAt := none }

/-- Scenario C process Q: approved with final approved RTO of 24 hours
(1440 minutes). -/
def scenarioC_Q : WorkItem :=
  { status := .Approved, ratings := [], recommendedRTO := some 1440,
    rtoJustification := none, reviewerComments := none,
    departmentHeadNote := some "ok", finalApprovedRTO := some 1440,
    finalImpactScore := none, submittedAt := none }

/-- Scenario D snapshot: three framework parameters. -/
def scenarioD_snapshot : List ParamSnapshot :=
  [⟨1, 40, [⟨"Low", 1⟩]⟩, ⟨2, 30, [⟨"Low", 1⟩]⟩, ⟨3, 30, [⟨"Low", 1⟩]⟩]

/-- Scenario D work item: in state Initiated with parameter 3 unrated. -/
def scenarioD_workItem : WorkItem :=
  { status := .Initiated, ratings := [⟨1, 1⟩, ⟨2, 1⟩], recommendedRTO := some 480,
    rtoJustification := none, reviewerComments := none, departmentHeadNote := none,
    finalApprovedRTO := none, finalImpactScore := none, submittedAt := none }

/-- Scenario D transition input carrying the three-parameter snapshot. -/
def scenarioD_input : StepInput :=
  { snapshot := scenarioD_snapshot, now := 100, draftRatings := [], draftRTO := none,
    draftJustification := none, comments := "", note := "", overrideScore := none,
    overrideRTO := none }

/-- A fully rated work item over the scenario D snapshot, used to exercise
the successful submit path. -/
def scenarioD_ratedItem : WorkItem :=
  { scenarioD_workItem with ratings := [⟨1, 1⟩, ⟨2, 1⟩, ⟨3, 1⟩] }

/-- A concrete page state with the create modal open, used to exercise the
department-creation handler. -/
def pageState0 : PageState :=
  { departments := [⟨"d1", "Finance", none⟩], isLoading := false, error := none,
    showCreateModal := true }

/- ===================== Helper lemmas ===================== -/

/-- A left fold of min starts from an element of the list or keeps the
seed. -/
lemma foldlMin_mem (rs : List Nat) (r : Nat) : rs.foldl min r ∈ r :: rs := by
  induction rs generalizing r with
  | nil => simp [List.foldl]
  | cons a as ih =>
      have h := ih (min r a)
      rcases min_choice r a with hmin | hmin <;>
        rcases List.mem_cons.mp h with h1 | h1 <;>
        simp [List.foldl, hmin] at h1 ⊢ <;> simp [h1]

/-- A left fold of min is a lower bound of the seed and the list. -/
lemma foldlMin_le (rs : List Nat) (r : Nat) : ∀ x ∈ r :: rs, rs.foldl min r ≤ x := by
  induction rs generalizing r with
  | nil => intro x hx; simp at hx; simp [List.foldl, hx]
  | cons a as ih =>
      intro x hx
      have hbase : as.foldl min (min r a) ≤ min r a :=
        ih (min r a) (min r a) (List.mem_cons_self _ _)
      have hseed : (a :: as).foldl min r = as.foldl min (min r a) := rfl
      rw [hseed]
      rcases List.mem_cons.mp hx with h1 | h1
      · exact le_trans hbase (by rw [h1]; exact min_le_left _ _)
      · rcases List.mem_cons.mp h1 with h2 | h2
        · exact le_trans hbase (by rw [h2]; exact min_le_right _ _)
        · exact ih (min r a) x (List.mem_cons_of_mem _ h2)

/-- The derived application RTO is none exactly when no supporting process
has an effective RTO. -/
lemma deriveApplicationRTO_eq_none_iff (sp : List WorkItem) :
    sp.filterMap deriveProcessRTO = [] ↔ deriveApplicationRTO sp = none := by
  unfold deriveApplicationRTO
  cases h : sp.filterMap deriveProcessRTO with
  | nil => simp
  | cons r rs => simp

/-- Any value returned by the derived application RTO is an effective RTO
of a supporting process and a lower bound of all of them. -/
lemma deriveApplicationRTO_min (sp : List WorkItem) (m : Nat)
    (h : deriveApplicationRTO sp = some m) :
    m ∈ sp.filterMap deriveProcessRTO ∧ ∀ r ∈ sp.filterMap deriveProcessRTO, m ≤ r := by
  unfold deriveApplicationRTO at h
  cases hl : sp.filterMap deriveProcessRTO with
  | nil => rw [hl] at h; simp at h
  | cons r rs =>
      rw [hl] at h
      simp only [Option.some.injEq] at h
      subst h
      exact ⟨foldlMin_mem rs r, foldlMin_le rs r⟩

/-- The derived application RTO only depends on the multiset of supporting
process states: it is invariant under permutation. -/
lemma deriveApplicationRTO_perm (sp sp' : List WorkItem) (h : sp.Perm sp') :
    deriveApplicationRTO sp = deriveApplicationRTO sp' := by
  have hfm : (sp.filterMap deriveProcessRTO).Perm (sp'.filterMap deriveProcessRTO) :=
    h.filterMap _
  cases hl : sp.filterMap deriveProcessRTO with
  | nil =>
      have : sp'.filterMap deriveProcessRTO = [] := by
        rw [hl] at hfm; exact hfm.symm.eq_nil
      rw [(deriveApplicationRTO_eq_none_iff sp).mp hl,
          (deriveApplicationRTO_eq_none_iff sp').mp this]
  | cons r rs =>
      cases hl' : sp'.filterMap deriveProcessRTO with
      | nil =>
          rw [hl, hl'] at hfm
          exact absurd hfm.eq_nil (by simp)
      | cons r' rs' =>
          have h1 : deriveApplicationRTO sp = some (rs.foldl min r) := by
            unfold deriveApplicationRTO; rw [hl]
          have h2 : deriveApplicationRTO sp' = some (rs'.foldl min r') := by
            unfold deriveApplicationRTO; rw [hl']
          rw [hl, hl'] at hfm
          have m1mem : rs.foldl min r ∈ r' :: rs' := hfm.mem_iff.mp (foldlMin_mem rs r)
          have m2mem : rs'.foldl min r' ∈ r :: rs := hfm.mem_iff.mpr (foldlMin_mem rs' r')
          have hle1 : rs.foldl min r ≤ rs'.foldl min r' := foldlMin_le rs r _ m2mem
          have hle2 : rs'.foldl min r' ≤ rs.foldl min r := foldlMin_le rs' r' _ m1mem
          rw [h1, h2, Nat.le_antisymm hle1 hle2]

/-- Over a snapshot where every parameter has a submitted rating given by
the assignment f, the per-parameter contributions are exactly f times the
weights. -/
lemma map_ratingScore_eq (ratings : List ParameterRating) (f : Nat → ℚ) :
    ∀ s : List ParamSnapshot, (∀ p ∈ s, lookupRating ratings p.pid = some (f p.pid)) →
      (s.map fun p => ratingScore ratings p.pid * p.weight) =
        (s.map fun p => f p.pid * p.weight) := by
  intro s
  induction s with
  | nil => intro _; rfl
  | cons p rest ih =>
      intro h
      have hp : lookupRating ratings p.pid = some (f p.pid) :=
        h p (List.mem_cons_self _ _)
      have hrest := ih fun q hq => h q (List.mem_cons_of_mem _ hq)
      simp only [List.map_cons, hrest, List.cons.injEq, and_true]
      unfold ratingScore
      rw [hp]

deriving instance DecidableEq for Except

/-- A snapshot parameter with no submitted rating in scenario A, used to
exercise the zero-contribution rule. -/
def paramNoRating : ParamSnapshot := ⟨3, 10, []⟩

/- ===================== Claim theorems ===================== -/

/-- C1: for every work item whose ratings cover the framework parameters
(with scoreGiven given by the assignment f), the impact score computed by
the Scoring Engine equals the weighted average of f times the weights over
the snapshot, divided by 100; in particular scenario A (P1 qualitative
Low=1 High=5 at weight 60 rated High, P2 Low=1 High=3 at weight 40 rated
Low) yields exactly 17/5 = 3.4. -/
theorem computeScore_weightedAverage :
    (∀ (f : Nat → ℚ) (ratings : List ParameterRating) (snapshot : List ParamSnapshot),
      (∀ p ∈ snapshot, lookupRating ratings p.pid = some (f p.pid)) →
      computeScore ratings snapshot =
        ((snapshot.map fun p => f p.pid * p.weight).sum) / 100) ∧
    computeScore scenarioA_ratings scenarioA_snapshot = 17 / 5 := by
  constructor
  · intro f ratings snapshot h
    unfold computeScore
    rw [map_ratingScore_eq ratings f snapshot h]
  · have h1 : ratingScore scenarioA_ratings 1 = 5 := by decide
    have h2 : ratingScore scenarioA_ratings 2 = 1 := by decide
    simp only [computeScore, scenarioA_snapshot, scenarioA_P1, scenarioA_P2, List.map_cons,
      List.map_nil, List.sum_cons, List.sum_nil, h1, h2]
    norm_num

/-- Witness for C1 at scenario A: the coverage hypothesis holds there, and
the theorem yields the weighted-average form of the score. -/
theorem computeScore_weightedAverage_witness :
    (∀ p ∈ scenarioA_snapshot,
      lookupRating scenarioA_ratings p.pid = some (scenarioA_f p.pid)) ∧
    computeScore scenarioA_ratings scenarioA_snapshot =
      ((scenarioA_snapshot.map fun p => scenarioA_f p.pid * p.weight).sum) / 100 :=
  ⟨by decide,
   computeScore_weightedAverage.1 scenarioA_f scenarioA_ratings scenarioA_snapshot (by decide)⟩

/-- C2: deriveApplicationRTO returns the minimum durationInMinutes among
the effective RTOs of the supporting processes that have one, and the
explicit value unset (none) exactly when no supporting process has an
effective RTO; in particular an application over processes approved at 8
hours (480) and 24 hours (1440) derives 480, and after unlinking the
8-hour process it recomputes to 1440. -/
theorem deriveApplicationRTO_minimum :
    (∀ sp : List WorkItem,
      (sp.filterMap deriveProcessRTO = [] ↔ deriveApplicationRTO sp = none) ∧
      (∀ m, deriveApplicationRTO sp = some m →
        m ∈ sp.filterMap deriveProcessRTO ∧ ∀ r ∈ sp.filterMap deriveProcessRTO, m ≤ r)) ∧
    deriveApplicationRTO [scenarioC_P, scenarioC_Q] = some 480 ∧
    deriveApplicationRTO [scenarioC_Q] = some 1440 :=
  ⟨fun sp => ⟨deriveApplicationRTO_eq_none_iff sp, fun m h => deriveApplicationRTO_min sp m h⟩,
   by decide, by decide⟩

/-- Witness for C2 at scenario C: the derived RTO is 480, which is an
effective RTO of a supporting process and a lower bound of all of them. -/
theorem deriveApplicationRTO_minimum_witness :
    deriveApplicationRTO [scenarioC_P, scenarioC_Q] = some 480 ∧
    (480 ∈ [scenarioC_P, scenarioC_Q].filterMap deriveProcessRTO ∧
      ∀ r ∈ [scenarioC_P, scenarioC_Q].filterMap deriveProcessRTO, 480 ≤ r) :=
  ⟨by decide, (deriveApplicationRTO_minimum.1 [scenarioC_P, scenarioC_Q]).2 480 (by decide)⟩

/-- C3: the workflow step is total over (state, action): every call
produces either a new work item or a named error, and every transition
invoked from a state not in its guard table fails with InvalidTransition
carrying both the current state and the attempted transition. -/
theorem step_total_and_invalidTransition :
    ∀ (a : WfAction) (inp : StepInput) (w : WorkItem),
      ((∃ w1, step a inp w = Except.ok w1) ∨ (∃ e, step a inp w = Except.error e)) ∧
      (w.status ∉ guardTable a →
        step a inp w = Except.error (WfError.InvalidTransition w.status a.name)) := by
  intro a inp w
  constructor
  · cases h : step a inp w with
    | ok w1 => exact Or.inl ⟨w1, rfl⟩
    | error e => exact Or.inr ⟨e, rfl⟩
  · intro hnot
    unfold step
    rw [if_neg hnot]

/-- Witness for C3: approve invoked on a work item in Initiated, a state
not in its guard table, fails with InvalidTransition naming Initiated and
approve. -/
theorem step_total_and_invalidTransition_witness :
    step WfAction.approve scenarioD_input scenarioD_workItem =
      Except.error (WfError.InvalidTransition Status.Initiated "approve") :=
  (step_total_and_invalidTransition WfAction.approve scenarioD_input scenarioD_workItem).2
    (by decide)

/-- C4: from state Initiated, submitForReview fails with
IncompleteSubmission when some framework parameter lacks a rating and the
work item is then unchanged (no score stored); when every parameter has a
rating it stores finalImpactScore, sets status SubmittedForReview and
stamps submittedAt. -/
theorem submitForReview_guard :
    ∀ (inp : StepInput) (w : WorkItem), w.status = Status.Initiated →
      (allRated inp.snapshot w.ratings = false →
        step WfAction.submitForReview inp w = Except.error WfError.IncompleteSubmission ∧
        runStep WfAction.submitForReview inp w = w) ∧
      (allRated inp.snapshot w.ratings = true →
        step WfAction.submitForReview inp w = Except.ok
          { w with status := Status.SubmittedForReview,
                   finalImpactScore := some (computeScore w.ratings inp.snapshot),
                   submittedAt := some inp.now }) := by
  intro inp w hst
  have hguard : w.status ∈ guardTable WfAction.submitForReview := by
    rw [hst]; simp [guardTable]
  constructor
  · intro hall
    have hstep : step WfAction.submitForReview inp w =
        Except.error WfError.IncompleteSubmission := by
      unfold step
      rw [if_pos hguard]
      simp [applyAction, hall]
    exact ⟨hstep, by unfold runStep; rw [hstep]⟩
  · intro hall
    unfold step
    rw [if_pos hguard]
    simp [applyAction, hall]

/-- Witness for C4 at scenario D: with one of three framework parameters
unrated, submitForReview from Initiated fails with IncompleteSubmission
and the work item is unchanged. -/
theorem submitForReview_guard_witness :
    step WfAction.submitForReview scenarioD_input scenarioD_workItem =
      Except.error WfError.IncompleteSubmission ∧
    runStep WfAction.submitForReview scenarioD_input scenarioD_workItem = scenarioD_workItem :=
  (submitForReview_guard scenarioD_input scenarioD_workItem (by decide)).1 (by decide)

/-- C5: framework save fails with EmptyFramework when zero parameters are
selected and with WeightSumInvalid when the active selected weights do not
sum to exactly 100; consequently every framework accepted by save has
active selected weights summing to 100. -/
theorem save_weight_validation :
    ∀ (ps : List FrameworkParamSel) (t : ℚ),
      (ps = [] → save ps t = Except.error FwError.EmptyFramework) ∧
      (ps ≠ [] → activeWeightSum ps ≠ 100 →
        save ps t = Except.error FwError.WeightSumInvalid) ∧
      (∀ fw, save ps t = Except.ok fw → activeWeightSum fw.params = 100) := by
  intro ps t
  refine ⟨?_, ?_, ?_⟩
  · intro h
    subst h
    rfl
  · intro hne hsum
    unfold save
    rw [if_neg (by simpa using hne), if_neg hsum]
  · intro fw h
    unfold save at h
    by_cases he : ps.isEmpty
    · rw [if_pos he] at h
      cases h
    · rw [if_neg he] at h
      by_cases hs : activeWeightSum ps = 100
      · rw [if_pos hs] at h
        injection h with h2
        rw [← h2]
        exact hs
      · rw [if_neg hs] at h
        cases h

/-- Witness for C5: a two-parameter framework with active weights 60 and
40 is accepted by save, and the theorem yields that its active weights sum
to 100. -/
theorem save_weight_validation_witness :
    save [⟨1, 60, true⟩, ⟨2, 40, true⟩] 3 =
      Except.ok ⟨[⟨1, 60, true⟩, ⟨2, 40, true⟩], 3⟩ ∧
    activeWeightSum [⟨1, 60, true⟩, ⟨2, 40, true⟩] = 100 :=
  ⟨by decide,
   (save_weight_validation [⟨1, 60, true⟩, ⟨2, 40, true⟩] 3).2.2
     ⟨[⟨1, 60, true⟩, ⟨2, 40, true⟩], 3⟩ (by decide)⟩

/-- C6: application RTO recomputation is idempotent and order-independent:
over a fixed set of supporting-process states, recomputing twice equals
recomputing once, and the derived value is invariant under any reordering
of the supporting processes, because it is a pure minimum reduction. -/
theorem recomputeAppRTO_idem_orderIndependent :
    ∀ (app : AppState) (sp sp' : List WorkItem),
      recomputeAppRTO (recomputeAppRTO app sp) sp = recomputeAppRTO app sp ∧
      (sp.Perm sp' → deriveApplicationRTO sp = deriveApplicationRTO sp') := by
  intro app sp sp'
  exact ⟨rfl, fun h => deriveApplicationRTO_perm sp sp' h⟩

/-- Witness for C6 at scenario C: recomputing twice over the two approved
processes equals recomputing once, and swapping the trigger order of the
two processes leaves the derived RTO identical. -/
theorem recomputeAppRTO_idem_orderIndependent_witness :
    recomputeAppRTO (recomputeAppRTO ⟨none⟩ [scenarioC_P, scenarioC_Q])
        [scenarioC_P, scenarioC_Q] =
      recomputeAppRTO ⟨none⟩ [scenarioC_P, scenarioC_Q] ∧
    deriveApplicationRTO [scenarioC_P, scenarioC_Q] =
      deriveApplicationRTO [scenarioC_Q, scenarioC_P] :=
  ⟨(recomputeAppRTO_idem_orderIndependent ⟨none⟩ [scenarioC_P, scenarioC_Q]
      [scenarioC_Q, scenarioC_P]).1,
   (recomputeAppRTO_idem_orderIndependent ⟨none⟩ [scenarioC_P, scenarioC_Q]
      [scenarioC_Q, scenarioC_P]).2 (by decide)⟩

/-- C7: computeScore is a deterministic pure function of the ratings and
the snapshot: equal inputs give an identical score, and a parameter with
no submitted rating contributes zero to its weighted term, so dropping it
from the snapshot leaves the score unchanged. -/
theorem computeScore_deterministic :
    ∀ (r1 r2 : List ParameterRating) (s1 s2 : List ParamSnapshot),
      (r1 = r2 → s1 = s2 → computeScore r1 s1 = computeScore r2 s2) ∧
      (∀ (p : ParamSnapshot) (rest : List ParamSnapshot),
        lookupRating r1 p.pid = none →
        computeScore r1 (p :: rest) = computeScore r1 rest) := by
  intro r1 r2 s1 s2
  constructor
  · intro h1 h2
    rw [h1, h2]
  · intro p rest h
    unfold computeScore
    simp only [List.map_cons, List.sum_cons]
    have hz : ratingScore r1 p.pid = 0 := by
      unfold ratingScore
      rw [h]
    rw [hz, zero_mul, zero_add]

/-- Witness for C7: two runs on the scenario A inputs agree, and a
parameter with no submitted rating drops out of the score. -/
theorem computeScore_deterministic_witness :
    computeScore scenarioA_ratings scenarioA_snapshot =
      computeScore scenarioA_ratings scenarioA_snapshot ∧
    computeScore scenarioA_ratings (paramNoRating :: scenarioA_snapshot) =
      computeScore scenarioA_ratings scenarioA_snapshot :=
  ⟨(computeScore_deterministic scenarioA_ratings scenarioA_ratings scenarioA_snapshot
      scenarioA_snapshot).1 rfl rfl,
   (computeScore_deterministic scenarioA_ratings scenarioA_ratings scenarioA_snapshot
      scenarioA_snapshot).2 paramNoRating scenarioA_snapshot (by decide)⟩

/-- C8: every submission of the Add New Department form in the features
flow posts a payload whose department_head_id is null and whose
organizationId is the hard-coded placeholder id, independently of the
department head and parent department entered in the form. -/
theorem featuresOnSubmit_hardcoded_payload :
    ∀ (n d : String) (hId hId' : Option String) (par par' : String),
      (featuresOnSubmitPayload (createDepartmentModalSubmit n d hId par)).department_head_id =
        none ∧
      (featuresOnSubmitPayload (createDepartmentModalSubmit n d hId par)).organizationId =
        "00000000-0000-0000-0000-000000000001" ∧
      featuresOnSubmitPayload (createDepartmentModalSubmit n d hId par) =
        featuresOnSubmitPayload (createDepartmentModalSubmit n d hId' par') := by
  intro n d hId hId' par par'
  exact ⟨rfl, rfl, rfl⟩

/-- C9: a failed create-department POST leaves the page state unchanged
(the create modal stays open and the list is untouched), while a
successful POST closes the modal and refetches the department list. -/
theorem handleCreateDepartment_failure_unchanged :
    ∀ (st : PageState) (post : Except String Unit) (fetch : Except String (List Department)),
      (∀ msg, post = Except.error msg → handleCreateDepartment st post fetch = st) ∧
      (post = Except.ok () →
        (handleCreateDepartment st post fetch).showCreateModal = false ∧
        handleCreateDepartment st post fetch =
          fetchDepartments { st with showCreateModal := false } fetch) := by
  intro st post fetch
  constructor
  · intro msg h
    subst h
    rfl
  · intro h
    subst h
    refine ⟨?_, rfl⟩
    unfold handleCreateDepartment fetchDepartments
    cases fetch <;> rfl

/-- Witness for C9: on a concrete open-modal page state, a failing POST
leaves the state exactly as it was. -/
theorem handleCreateDepartment_failure_unchanged_witness :
    handleCreateDepartment pageState0 (Except.error "Failed to create department")
      (Except.ok []) = pageState0 :=
  (handleCreateDepartment_failure_unchanged pageState0
    (Except.error "Failed to create department") (Except.ok [])).1
    "Failed to create department" rfl

/-- C10: with a falsy organizationId the UserSelector effect issues no
user-fetch request and leaves its state unchanged, the component renders a
disabled select holding only the placeholder option, and the select
onChange passes null for the empty placeholder value and the chosen id
otherwise. -/
theorem userSelector_missing_org :
    ∀ (orgId : Option String) (st : USState) (fetch : Except String (List User)) (v : String),
      isFalsyOrgId orgId = true →
      runFetchUsersEffect orgId fetch st = (st, none) ∧
      renderUserSelector orgId none initialUSState =
        USRender.select { value := "", disabled := true, options := [placeholderOption] } ∧
      userSelectorOnChange "" = none ∧
      (v ≠ "" → userSelectorOnChange v = some v) := by
  intro orgId st fetch v h
  refine ⟨?_, ?_, rfl, ?_⟩
  · unfold runFetchUsersEffect
    rw [h]
    rfl
  · unfold renderUserSelector initialUSState
    simp [h]
  · intro hv
    unfold userSelectorOnChange
    simp [hv]

/-- Witness for C10: with a missing organizationId and the initial state,
no request is issued, the rendered select is disabled with only the
placeholder option, and onChange maps the placeholder to null and a
concrete id to itself. -/
theorem userSelector_missing_org_witness :
    runFetchUsersEffect none (Except.ok []) initialUSState = (initialUSState, none) ∧
    renderUserSelector none none initialUSState =
      USRender.select { value := "", disabled := true, options := [placeholderOption] } ∧
    userSelectorOnChange "" = none ∧
    userSelectorOnChange "u-1" = some "u-1" :=
  ⟨(userSelector_missing_org none initialUSState (Except.ok []) "u-1" (by decide)).1,
   (userSelector_missing_org none initialUSState (Except.ok []) "u-1" (by decide)).2.1,
   (userSelector_missing_org none initialUSState (Except.ok []) "u-1" (by decide)).2.2.1,
   (userSelector_missing_org none initialUSState (Except.ok []) "u-1" (by decide)).2.2.2
     (by decide)⟩
